import Mathlib

set_option maxRecDepth 100000

/-!
Shallow embedding of the ingestion-classification-dedup pipeline of
`main.py` (Flask app with OpenAI summarization and Telegram polling).

Modelling conventions:
* Python strings are `String`; `str.lower()` is modelled by ASCII case
  folding over the character list — all keywords and inputs considered here
  are ASCII.
* JSON values decoded by `json.loads` are the inductive `Json`; Python's
  dynamic field accesses (`dict.get`, slicing, `float(...)`) are modelled as
  `Except Unit _` computations, where `.error ()` stands for a raised Python
  exception.
* Network and model calls (`requests`, `openai`, `feedparser`) are oracles
  passed in as function arguments: the embedding quantifies over every
  possible answer the outside world can give.
* `datetime.utcnow().isoformat()` is the parameter `now : String`;
  `datetime.utcfromtimestamp(t).isoformat()` is the parameter
  `tsIso : Nat → String`.
* The SQLite table `articles` with its `url TEXT UNIQUE` column and
  `INSERT OR IGNORE` is the list `List Article` with insert-or-ignore keyed
  on `url`; every caller in the program supplies a string (never-`None`) url.
-/

/-- A JSON value as decoded by Python's `json.loads`: object keys are the
distinct keys of the resulting `dict`, in order. -/
inductive Json where
  | null
  | bool (b : Bool)
  | num (q : ℚ)
  | str (s : String)
  | arr (xs : List Json)
  | obj (fs : List (String × Json))

/-- ASCII lowercase of one character (the case Python's `str.lower()` hits on
the ASCII inputs of this development). -/
def charLower (c : Char) : Char :=
  if 'A' ≤ c ∧ c ≤ 'Z' then Char.ofNat (c.toNat + 32) else c

/-- Python `str.lower()` (ASCII folding, see module conventions). -/
def pyLower (s : String) : String := ⟨s.data.map charLower⟩

/-- Membership test for `needle <:+: hay` on character lists, executable. -/
def charsInfix (needle : List Char) : List Char → Bool
  | [] => needle.isEmpty
  | c :: rest => needle.isPrefixOf (c :: rest) || charsInfix needle rest

/-- Python's substring test `needle in hay`. -/
def pyIn (needle hay : String) : Bool := charsInfix needle.data hay.data

/-- The `KEYWORDS` list of `main.py` (lines 42–46). -/
def KEYWORDS : List String :=
  [ "anonymous", "op unite", "opunite", "op unity", "opunity",
    "op israel", "op russia", "op paris", "opwiki", "ophack",
    "operation anonymous", "claimed operation", "hacktivism", "hacktiviste" ]

/-- The keyword gate used verbatim at both ingestion sites
(`fetch_action` line 189–190 and `process_telegram_message` line 327–329):
`any(k.lower() in combined.lower() for k in KEYWORDS)`. -/
def isRelevant (combined : String) : Bool :=
  let lower := pyLower combined
  KEYWORDS.any fun k => pyIn (pyLower k) lower

/-- Digits of a decimal string folded into a `Nat`. -/
def digitsToNat (cs : List Char) : Nat :=
  cs.foldl (fun a c => a * 10 + (c.toNat - 48)) 0

/-- Python `float(s)` on a string, for the plain decimal forms
`[ws] [sign] digits [. digits] [ws]` (the exponent / `inf` / `nan` forms never
arise in this development, no claim depends on them). `none` = `ValueError`. -/
def pyParseFloat (s : String) : Option ℚ :=
  let t0 := s.data.dropWhile (· == ' ')
  let t := (t0.reverse.dropWhile (· == ' ')).reverse
  let signed : ℚ × List Char :=
    match t with
    | '-' :: r => (-1, r)
    | '+' :: r => (1, r)
    | r => (1, r)
  let sign := signed.1
  let t1 := signed.2
  let ip := t1.takeWhile (· ≠ '.')
  match t1.dropWhile (· ≠ '.') with
  | [] =>
    if !ip.isEmpty && ip.all (·.isDigit) then some (sign * digitsToNat ip) else none
  | '.' :: fr =>
    if ip.all (·.isDigit) && fr.all (·.isDigit) && !(ip.isEmpty && fr.isEmpty) then
      some (sign * ((digitsToNat ip : ℚ) + (digitsToNat fr : ℚ) / (10 ^ fr.length)))
    else none
  | _ => none

/-- Python `float(x)` on a JSON-decoded value: numbers pass through, booleans
coerce to 0/1, numeric strings parse; `None`, lists and dicts raise
`TypeError` (and non-numeric strings `ValueError`). -/
def pyFloat : Json → Except Unit ℚ
  | .num q => .ok q
  | .bool b => .ok (if b then 1 else 0)
  | .str s =>
    match pyParseFloat s with
    | some q => .ok q
    | none => .error ()
  | _ => .error ()

/-- Python `parsed.get(key, dflt)`: a `dict` lookup with default; on a
non-`dict` value `.get` raises `AttributeError`. -/
def jGet (j : Json) (key : String) (dflt : Json) : Except Unit Json :=
  match j with
  | .obj fs => .ok (((fs.find? (fun p => p.1 == key)).map Prod.snd).getD dflt)
  | _ => .error ()

/-- Python `x[:1000]`: slicing works on strings and lists, raises `TypeError`
on every other JSON-decoded value. -/
def pySlice1000 : Json → Except Unit Json
  | .str s => .ok (.str (s.data.take 1000).asString)
  | .arr xs => .ok (.arr (xs.take 1000))
  | _ => .error ()

/-- Outcome of the remote completion call in `summarize_and_classify`
(lines 141–151): the `openai` call raised, or returned text that
`json.loads` rejects, or returned text parsed to the JSON value `j`. -/
inductive CompletionResult where
  | raised
  | nonJson
  | json (j : Json)

/-- The triple `(summary, category, confidence)` returned by
`summarize_and_classify`. Summary and category stay `Json` because the Python
code never coerces them to strings. -/
structure ClassifyResult where
  summary : Json
  category : Json
  confidence : ℚ

/-- The sentinel returned on the `except` path of `summarize_and_classify`
(line 158): `("(summary failed)", "other", 0.0)`. -/
def classifySentinel : ClassifyResult :=
  ⟨.str "(summary failed)", .str "other", 0⟩

/-- The recognized category values listed in the classification prompt
(line 132 of `main.py`). -/
def CATEGORIES : List String :=
  ["news", "analysis", "claimed_operation", "historical", "opinion", "other"]

/-- `summarize_and_classify` (lines 127–158), as a function of the completion
outcome. The `try` block covers the remote call, `json.loads`, and the three
field extractions; any raise lands on the sentinel. -/
def summarize_and_classify (r : CompletionResult) : ClassifyResult :=
  match r with
  | .raised => classifySentinel
  | .nonJson => classifySentinel
  | .json j =>
    let body : Except Unit ClassifyResult := do
      let s0 ← jGet j "summary" (.str "")
      let summary ← pySlice1000 s0
      let category ← jGet j "category" (.str "other")
      let c0 ← jGet j "confidence" (.num 0)
      let confidence ← pyFloat c0
      pure ⟨summary, category, confidence⟩
    match body with
    | .ok res => res
    | .error _ => classifySentinel

/-- A row of the SQLite `articles` table (`init_db`, lines 60–72);
`fetched_at` is filled in by `save_article` at insertion time. -/
structure Article where
  url : String
  source : String
  title : String
  published_at : String
  content : String
  summary : Json
  category : Json
  confidence : ℚ
  fetched_at : String

/-- The dict passed to `save_article` by its two callers (lines 193–202 and
341–350). Both callers always supply every key, with a string url. -/
structure Item where
  url : String
  source : String
  title : String
  published_at : String
  content : String
  summary : Json
  category : Json
  confidence : ℚ

/-- The row built by the `INSERT` of `save_article`, with
`datetime.utcnow().isoformat()` passed in as `now`. -/
def articleOf (item : Item) (now : String) : Article :=
  ⟨item.url, item.source, item.title, item.published_at, item.content,
   item.summary, item.category, item.confidence, now⟩

/-- `save_article` (lines 76–94): `INSERT OR IGNORE` against the
`url TEXT UNIQUE` column — the row is appended unless a row with the same
`url` already exists, in which case the statement is a silent no-op. -/
def save_article (store : List Article) (item : Item) (now : String) : List Article :=
  if store.any (fun a => a.url == item.url) then store
  else store ++ [articleOf item now]

/-- A raw feedparser entry as seen by `fetch_rss`: each field is `none` when
the key is absent (`e.get(...)` returns `None`). -/
structure FeedEntry where
  link : Option String
  id : Option String
  title : Option String
  published : Option String
  updated : Option String

/-- Python `a or b` on optional strings: `a` unless it is `None` or `""`. -/
def pyOrS (a b : Option String) : Option String :=
  match a with
  | some s => if s = "" then b else some s
  | none => b

/-- One element of the list built by `fetch_rss` (line 104); the unused
`"raw"` key is omitted. `url` may be `None` when the entry has neither a
link nor an id. -/
structure RssItem where
  url : Option String
  title : String
  published_at : String

/-- The per-entry dict of `fetch_rss` (lines 100–104):
`link = e.get("link") or e.get("id")`, `title = e.get("title", "")`,
`published = e.get("published") or e.get("updated") or ""`. -/
def fetchRssItem (e : FeedEntry) : RssItem :=
  { url := pyOrS e.link e.id
  , title := e.title.getD ""
  , published_at := ((pyOrS e.published e.updated).getD "") }

/-- `fetch_rss` (lines 97–105) applied to the entry list the feed parser
produced for the document. -/
def fetch_rss (entries : List FeedEntry) : List RssItem :=
  entries.map fetchRssItem

/-- Result state of `fetch_action`: the `fetched` and `saved` counters, the
article store, and (instrumentation) the number of `summarize_and_classify`
invocations made so far. -/
structure FetchResult where
  fetched : Nat
  saved : Nat
  store : List Article
  calls : Nat

/-- The body of the inner `for it in items[:10]` loop of `fetch_action`
(lines 184–205). `net` is the oracle for `fetch_page_text` (which returns
`""` on any network/HTTP failure, and is never called on a `None` url
because `requests.get(None)` raises inside it, giving `""`); `clf` is the
oracle for the completion call made by `summarize_and_classify`. -/
def processEntry (net : String → String) (clf : String → String → CompletionResult)
    (now : String) (src : String) (st : FetchResult) (it : RssItem) : FetchResult :=
  match it.url with
  | none => st
  | some u =>
    let content := net u
    if content = "" then st
    else if !(isRelevant (it.title ++ " " ++ content)) then st
    else
      let cr := summarize_and_classify (clf content u)
      { fetched := st.fetched + 1
      , saved := st.saved + 1
      , store := save_article st.store
          ⟨u, src, it.title, it.published_at, content, cr.summary, cr.category, cr.confidence⟩ now
      , calls := st.calls + 1 }

/-- The `try: items = fetch_rss(f) except: items = []` of lines 180–183:
a malformed feed contributes an empty item list. -/
def entriesOfFeed (res : Except Unit (List FeedEntry)) : List RssItem :=
  match res with
  | .ok l => fetch_rss l
  | .error _ => []

/-- `fetch_action` (lines 170–207) over the feed list (defaults plus the
optional custom feed), starting from the current database `db`, with
`host` standing for `urlparse(f).netloc`. Counters start at 0. -/
def fetch_action (net : String → String) (clf : String → String → CompletionResult)
    (host : String → String) (now : String)
    (feeds : List (String × Except Unit (List FeedEntry))) (db : List Article) : FetchResult :=
  feeds.foldl
    (fun st f => ((entriesOfFeed f.2).take 10).foldl (processEntry net clf now (host f.1)) st)
    ⟨0, 0, db, 0⟩

/-- Python `a or b` where `a` is a possibly-absent message dict (a present
message dict is non-empty, hence truthy). -/
def pyOrM {α : Type} (a b : Option α) : Option α :=
  match a with
  | some x => some x
  | none => b

/-- The pseudo-URL synthesized for a Telegram message (lines 332–336):
`https://t.me/{username}/{message_id}` when the chat has a (truthy) username,
else `tg://{chat_id}/{message_id}`. -/
def msgUrl (chat_id : Int) (username : Option String) (message_id : Nat) : String :=
  match username with
  | some un =>
    if un = "" then "tg://" ++ toString chat_id ++ "/" ++ toString message_id
    else "https://t.me/" ++ un ++ "/" ++ toString message_id
  | none => "tg://" ++ toString chat_id ++ "/" ++ toString message_id

/-- The `published_at` value stored for a Telegram message (line 345):
`datetime.utcfromtimestamp(date_ts).isoformat() if date_ts else
datetime.utcnow().isoformat()` — note `date_ts = 0` and `date_ts = None`
are both falsy. -/
def tgPublishedAt (date_ts : Option Nat) (tsIso : Nat → String) (now : String) : String :=
  match date_ts with
  | some t => if t = 0 then now else tsIso t
  | none => now

/-- Result of `process_telegram_message`: its boolean return value, the
store, and (instrumentation) how many classifier calls were made (0 or 1). -/
structure TgProcResult where
  saved : Bool
  store : List Article
  calls : Nat

/-- `process_telegram_message` (lines 320–352). The poller always passes a
string `text` (possibly `""`); `if not text` is the `text = ""` test. -/
def process_telegram_message (clf : String → String → CompletionResult)
    (tsIso : Nat → String) (now : String)
    (chat_id : Int) (chat_title : Option String) (username : Option String)
    (message_id : Nat) (text : String) (date_ts : Option Nat)
    (store : List Article) : TgProcResult :=
  if text = "" then ⟨false, store, 0⟩
  else
    let combined := (chat_title.getD "") ++ " " ++ (username.getD "") ++ " " ++ text
    if !(isRelevant combined) then ⟨false, store, 0⟩
    else
      let url := msgUrl chat_id username message_id
      let cr := summarize_and_classify (clf text url)
      let title := (pyOrS chat_title username).getD "Telegram"
      let item : Item :=
        ⟨url, "telegram", title, tgPublishedAt date_ts tsIso now, text,
         cr.summary, cr.category, cr.confidence⟩
      ⟨true, save_article store item now, 1⟩

/-- The `chat` dict of a Telegram update. -/
structure TgChat where
  id : Int
  title : Option String
  first_name : Option String
  username : Option String

/-- A `message` / `channel_post` / `edited_message` payload. -/
structure TgMessage where
  chat : TgChat
  message_id : Nat
  date : Option Nat
  text : Option String
  caption : Option String

/-- One element of the `result` array of `getUpdates`. -/
structure TgUpdate where
  update_id : Nat
  message : Option TgMessage
  channel_post : Option TgMessage
  edited_message : Option TgMessage

/-- Outcome of one `getUpdates` round trip in `telegram_poller_loop`:
a network/HTTP exception (lines 364–366 raising), a well-formed reply with
`ok` false (line 367), or a well-formed reply with an update batch. -/
inductive PollResponse where
  | netError
  | notOk
  | ok (updates : List TgUpdate)

/-- The loop-carried state of `telegram_poller_loop`: the `offset` cursor,
the article store, and (instrumentation) the classifier call count. -/
structure PollState where
  offset : Option Nat
  store : List Article
  calls : Nat

/-- The offset actually sent with the next `getUpdates` request
(lines 361–363): `params["offset"] = offset` only under `if offset:`, so
`None` and `0` are both omitted. -/
def requestOffset (offset : Option Nat) : Option Nat :=
  match offset with
  | some o => if o = 0 then none else some o
  | none => none

/-- The body of `for u in updates` (lines 372–386): the cursor is set to
`u["update_id"] + 1` first, then the first present of
`message`/`channel_post`/`edited_message` is extracted and processed;
updates with no such payload are skipped. -/
def processUpdate (clf : String → String → CompletionResult)
    (tsIso : Nat → String) (now : String) (st : PollState) (u : TgUpdate) : PollState :=
  let st1 : PollState := ⟨some (u.update_id + 1), st.store, st.calls⟩
  match pyOrM u.message (pyOrM u.channel_post u.edited_message) with
  | none => st1
  | some m =>
    let chat := m.chat
    let chat_title := pyOrS chat.title (pyOrS chat.first_name chat.username)
    let text := (pyOrS m.text m.caption).getD ""
    let r := process_telegram_message clf tsIso now chat.id chat_title
      chat.username m.message_id text m.date st1.store
    ⟨st1.offset, r.store, st1.calls + r.calls⟩

/-- One iteration of the `while True` loop of `telegram_poller_loop`
(lines 359–390), as a state transformer: on a network error or a not-ok
reply the state (in particular the cursor) is left unchanged and the loop
sleeps and retries; on a well-formed reply every update in the batch is
handled by `processUpdate`. The store is the spec's assumed atomic
insert-or-ignore sink, so no step of the body raises. -/
def pollIteration (clf : String → String → CompletionResult)
    (tsIso : Nat → String) (now : String)
    (resp : PollResponse) (st : PollState) : PollState :=
  match resp with
  | .netError => st
  | .notOk => st
  | .ok updates => updates.foldl (processUpdate clf tsIso now) st

/-- C2: a repeat `save_article` with the same url is a silent no-op — the
store keeps exactly one record for that url, the first one saved, and no
field of it is overwritten. -/
theorem save_article_dedup (s : List Article) (a b : Item) (na nb : String)
    (hab : b.url = a.url) (hs : ∀ x ∈ s, x.url ≠ a.url) :
    save_article (save_article s a na) b nb = save_article s a na ∧
    (save_article (save_article s a na) b nb).filter (fun x => x.url == a.url)
      = [articleOf a na] := by
  have h1 : s.any (fun x => x.url == a.url) = false := by
    simp only [List.any_eq_false]
    intro x hx
    simpa using hs x hx
  have hsave : save_article s a na = s ++ [articleOf a na] := by
    simp [save_article, h1]
  have h2 : (s ++ [articleOf a na]).any (fun x => x.url == b.url) = true := by
    simp [List.any_append, articleOf, hab]
  have hsecond : save_article (save_article s a na) b nb = save_article s a na := by
    rw [hsave]
    simp [save_article, h2]
  refine ⟨hsecond, ?_⟩
  rw [hsecond, hsave, List.filter_append]
  have hfiltnil : s.filter (fun x => x.url == a.url) = [] := by
    simp only [List.filter_eq_nil_iff]
    intro x hx
    simpa using hs x hx
  rw [hfiltnil]
  simp [articleOf]

/-- Concrete instance of `save_article_dedup`: two items with the same url
and different content, saved into an empty store. -/
def itemA : Item :=
  ⟨"https://x/1", "feedA", "t1", "2024-01-01", "content one", .str "s1", .str "news", 1⟩

/-- Second item for the `save_article_dedup` witness: same url as `itemA`,
different everything else. -/
def itemB : Item :=
  ⟨"https://x/1", "feedB", "t2", "2024-02-02", "content two", .str "s2", .str "opinion", 0⟩

theorem save_article_dedup_witness :
    save_article (save_article [] itemA "n1") itemB "n2" = save_article [] itemA "n1" ∧
    (save_article (save_article [] itemA "n1") itemB "n2").filter
      (fun x => x.url == itemA.url) = [articleOf itemA "n1"] :=
  save_article_dedup [] itemA itemB "n1" "n2" rfl (by simp)

/-- C1 counterexample: a classifier response with `confidence = 1.7` flows
through the chat pipeline and is stored as `1.7`, not clamped to `1.0` —
the stored confidence is outside `[0, 1]`. -/
theorem confidence_not_clamped_cex :
    ((process_telegram_message
        (fun _ _ => .json (.obj
          [("summary", .str "s"), ("category", .str "claimed_operation"),
           ("confidence", .num (17/10))]))
        (fun _ => "") "T" 1 none none 1 "anonymous" none []).store.map
      Article.confidence = [17/10]) ∧ ¬ ((17/10 : ℚ) ≤ 1) := by
  refine ⟨rfl, by norm_num⟩

/-- C1 (amended): no clamping happens anywhere between the classifier
response and storage — `summarize_and_classify` returns the response's
confidence exactly as `float()` produced it (out-of-range values such as
`1.7` or `-0.3` included), and `save_article` stores the item's confidence
verbatim. -/
theorem confidence_passthrough :
    (∀ (s c : String) (q : ℚ),
      summarize_and_classify (.json (.obj
        [("summary", .str s), ("category", .str c), ("confidence", .num q)]))
        = ⟨.str (s.data.take 1000).asString, .str c, q⟩) ∧
    (∀ (db : List Article) (item : Item) (now : String) (a : Article),
      a ∈ save_article db item now → a ∈ db ∨ a = articleOf item now) := by
  constructor
  · intro s c q
    rfl
  · intro db item now a ha
    unfold save_article at ha
    split at ha
    · exact Or.inl ha
    · rcases List.mem_append.mp ha with h | h
      · exact Or.inl h
      · exact Or.inr (List.mem_singleton.mp h)

theorem confidence_passthrough_witness :
    (summarize_and_classify (.json (.obj
      [("summary", .str "ok"), ("category", .str "news"), ("confidence", .num (17/10))]))
      = ⟨.str "ok", .str "news", 17/10⟩) ∧
    (articleOf itemA "n1" ∈ ([] : List Article) ∨ articleOf itemA "n1" = articleOf itemA "n1") :=
  ⟨confidence_passthrough.1 "ok" "news" (17/10),
   confidence_passthrough.2 [] itemA "n1" (articleOf itemA "n1") (by simp [save_article])⟩

/-- C6 counterexample: a classifier response whose category is the
unrecognized string `"banana"` is stored verbatim — the code never checks
the category against the prompt's enum. -/
theorem category_unvalidated_cex :
    ((process_telegram_message
        (fun _ _ => .json (.obj
          [("summary", .str "s"), ("category", .str "banana"),
           ("confidence", .num 1)]))
        (fun _ => "") "T" 1 none none 1 "anonymous" none []).store.map
      Article.category = [.str "banana"]) ∧
    CATEGORIES.all (fun c => c != "banana") = true := by
  refine ⟨rfl, by decide⟩

/-- C6 (amended): the stored category is `other` only when the classifier
failed or the response omitted the field; a present category value of any
shape — recognized or not — is stored verbatim, with no validation against
the enum. -/
theorem category_passthrough :
    (∀ (s : String) (q : ℚ) (c : Json),
      (summarize_and_classify (.json (.obj
        [("summary", .str s), ("category", c), ("confidence", .num q)]))).category = c) ∧
    (∀ (s : String) (q : ℚ),
      (summarize_and_classify (.json (.obj
        [("summary", .str s), ("confidence", .num q)]))).category = .str "other") ∧
    ((summarize_and_classify .raised).category = .str "other") ∧
    ((summarize_and_classify .nonJson).category = .str "other") := by
  refine ⟨fun s q c => rfl, fun s q => rfl, rfl, rfl⟩

/-- C5 counterexample: a parseable JSON object with a malformed summary
field (a JSON array) does not produce the sentinel triple — the array
slices without raising and is returned as the summary. -/
theorem classifier_fallback_cex :
    summarize_and_classify (.json (.obj
      [("summary", .arr []), ("category", .str "news"), ("confidence", .num 1)]))
      = ⟨.arr [], .str "news", 1⟩ ∧
    Json.arr [] ≠ Json.str "(summary failed)" :=
  ⟨rfl, fun h => by cases h⟩

/-- C5 (amended): the sentinel triple is returned whenever the completion
backend raises, the returned text is not parseable JSON, the parsed JSON is
not an object, or a field extraction itself raises (e.g. a `null`
confidence); but a parseable JSON object whose malformed fields happen to
extract without raising (e.g. an array-valued summary) is returned as-is,
without the sentinel. -/
theorem classifier_fallback :
    (summarize_and_classify .raised = classifySentinel) ∧
    (summarize_and_classify .nonJson = classifySentinel) ∧
    (∀ j : Json, (∀ fs, j ≠ .obj fs) →
      summarize_and_classify (.json j) = classifySentinel) ∧
    (∀ (s c : String),
      summarize_and_classify (.json (.obj
        [("summary", .str s), ("category", .str c), ("confidence", .null)]))
        = classifySentinel) := by
  refine ⟨rfl, rfl, ?_, fun s c => rfl⟩
  intro j hj
  cases j with
  | obj fs => exact absurd rfl (hj fs)
  | null => rfl
  | bool b => rfl
  | num q => rfl
  | str s => rfl
  | arr xs => rfl

theorem classifier_fallback_witness :
    summarize_and_classify (.json (.arr [])) = classifySentinel :=
  classifier_fallback.2.2.1 (.arr []) (fun _ h => by cases h)

/-- C4: relevance gating on both ingestion paths. Parts 1–2 are the feed
path: an entry whose title-plus-extracted-text matches no keyword leaves the
job state (store, counters, classifier-call count) untouched, and any entry
that changes the state passed the case-insensitive keyword test on
`title + " " + content`. Parts 3–4 are the chat path over
`chat_title + " " + username + " " + text`. -/
theorem relevance_gating :
    (∀ net clf now src st it,
      (∀ u, it.url = some u → isRelevant (it.title ++ " " ++ net u) = false) →
      processEntry net clf now src st it = st) ∧
    (∀ net clf now src st it,
      processEntry net clf now src st it ≠ st →
      ∃ u, it.url = some u ∧ net u ≠ "" ∧
        isRelevant (it.title ++ " " ++ net u) = true) ∧
    (∀ clf tsIso now cid ct un mid text dts store,
      isRelevant ((ct.getD "") ++ " " ++ (un.getD "") ++ " " ++ text) = false →
      process_telegram_message clf tsIso now cid ct un mid text dts store
        = ⟨false, store, 0⟩) ∧
    (∀ clf tsIso now cid ct un mid text dts store,
      (process_telegram_message clf tsIso now cid ct un mid text dts store).calls ≠ 0 →
      isRelevant ((ct.getD "") ++ " " ++ (un.getD "") ++ " " ++ text) = true) := by
  refine ⟨?_, ?_, ?_, ?_⟩
  · intro net clf now src st it h
    unfold processEntry
    cases hu : it.url with
    | none => rfl
    | some u =>
      have hrel : isRelevant (it.title ++ " " ++ net u) = false := h u hu
      simp [hrel]
  · intro net clf now src st it h
    unfold processEntry at h
    cases hu : it.url with
    | none => rw [hu] at h; exact absurd rfl h
    | some u =>
      rw [hu] at h
      by_cases hc : net u = ""
      · simp [hc] at h
      · by_cases hrel : isRelevant (it.title ++ " " ++ net u) = true
        · exact ⟨u, rfl, hc, hrel⟩
        · simp [hc, hrel] at h
  · intro clf tsIso now cid ct un mid text dts store h
    unfold process_telegram_message
    by_cases ht : text = ""
    · simp [ht]
    · simp [ht, h]
  · intro clf tsIso now cid ct un mid text dts store h
    unfold process_telegram_message at h
    by_cases ht : text = ""
    · simp [ht] at h
    · by_cases hrel :
        isRelevant ((ct.getD "") ++ " " ++ (un.getD "") ++ " " ++ text) = true
      · exact hrel
      · simp [ht, hrel] at h

theorem relevance_gating_witness :
    (processEntry (fun _ => "just some plain security text")
        (fun _ _ => .raised) "N" "S" ⟨0, 0, [], 0⟩ ⟨some "u", "title", ""⟩
      = ⟨0, 0, [], 0⟩) ∧
    (process_telegram_message (fun _ _ => .raised) (fun _ => "") "N"
        7 (some "general chat") none 3 "nothing to see here" none []
      = ⟨false, [], 0⟩) :=
  ⟨relevance_gating.1 _ _ _ _ _ _ (fun u hu => by cases hu; decide),
   relevance_gating.2.2.1 _ _ _ _ _ _ _ _ _ _ (by decide)⟩

/-- The condition under which the inner loop of `fetch_action` reaches the
classify-and-save block for an entry: the url is present, extraction yields
non-empty text, and the keyword gate passes. -/
def entryQualifies (net : String → String) (it : RssItem) : Bool :=
  match it.url with
  | none => false
  | some u => (net u != "") && isRelevant (it.title ++ " " ++ net u)

/-- `processEntry` bumps `fetched`, `saved` and the classifier-call count by
one exactly when the entry qualifies, and leaves them unchanged otherwise. -/
theorem processEntry_counts (net : String → String)
    (clf : String → String → CompletionResult) (now src : String)
    (st : FetchResult) (it : RssItem) :
    (processEntry net clf now src st it).fetched
        = st.fetched + (if entryQualifies net it then 1 else 0) ∧
    (processEntry net clf now src st it).saved
        = st.saved + (if entryQualifies net it then 1 else 0) ∧
    (processEntry net clf now src st it).calls
        = st.calls + (if entryQualifies net it then 1 else 0) := by
  unfold processEntry entryQualifies
  cases hu : it.url with
  | none => simp
  | some u =>
    by_cases hc : net u = ""
    · simp [hc]
    · by_cases hrel : isRelevant (it.title ++ " " ++ net u) = true
      · simp [hc, hrel]
      · rw [Bool.not_eq_true] at hrel
        simp [hc, hrel]

/-- Folding `processEntry` over a list of entries adds the number of
qualifying entries to each counter. -/
theorem foldl_processEntry_counts (net : String → String)
    (clf : String → String → CompletionResult) (now src : String)
    (its : List RssItem) (st : FetchResult) :
    (its.foldl (processEntry net clf now src) st).fetched
        = st.fetched + its.countP (entryQualifies net) ∧
    (its.foldl (processEntry net clf now src) st).saved
        = st.saved + its.countP (entryQualifies net) ∧
    (its.foldl (processEntry net clf now src) st).calls
        = st.calls + its.countP (entryQualifies net) := by
  induction its generalizing st with
  | nil => simp
  | cons it rest ih =>
    obtain ⟨h1, h2, h3⟩ := processEntry_counts net clf now src st it
    obtain ⟨g1, g2, g3⟩ := ih (processEntry net clf now src st it)
    refine ⟨?_, ?_, ?_⟩ <;>
      simp only [List.foldl_cons, List.countP_cons, g1, g2, g3, h1, h2, h3] <;>
      by_cases hq : entryQualifies net it <;> simp [hq] <;> omega

/-- The number of entries across all feeds (first 10 per feed, malformed
feeds contributing none) that pass extraction and the keyword gate. -/
def qualCount (net : String → String)
    (feeds : List (String × Except Unit (List FeedEntry))) : Nat :=
  (feeds.map (fun f => ((entriesOfFeed f.2).take 10).countP (entryQualifies net))).sum

/-- C10: in `fetch_action` the two reported counters are always equal, and
both equal the number of entries that passed extraction and relevance —
entries skipped as empty or irrelevant are not counted, and since the count
is independent of the store, an entry whose url already exists (insert
ignored) still increments the reported saved count. -/
theorem fetch_action_counts (net : String → String)
    (clf : String → String → CompletionResult) (host : String → String)
    (now : String) (feeds : List (String × Except Unit (List FeedEntry)))
    (db : List Article) :
    (fetch_action net clf host now feeds db).fetched
        = (fetch_action net clf host now feeds db).saved ∧
    (fetch_action net clf host now feeds db).saved = qualCount net feeds := by
  suffices h : ∀ (st : FetchResult),
      (feeds.foldl (fun st f =>
        ((entriesOfFeed f.2).take 10).foldl (processEntry net clf now (host f.1)) st)
        st).fetched = st.fetched + qualCount net feeds ∧
      (feeds.foldl (fun st f =>
        ((entriesOfFeed f.2).take 10).foldl (processEntry net clf now (host f.1)) st)
        st).saved = st.saved + qualCount net feeds by
    obtain ⟨h1, h2⟩ := h ⟨0, 0, db, 0⟩
    unfold fetch_action
    rw [h1, h2]
    exact ⟨rfl, by simp⟩
  induction feeds with
  | nil => intro st; simp [qualCount]
  | cons f rest ih =>
    intro st
    obtain ⟨h1, h2, _⟩ := foldl_processEntry_counts net clf now (host f.1)
      ((entriesOfFeed f.2).take 10) st
    obtain ⟨g1, g2⟩ := ih
      (((entriesOfFeed f.2).take 10).foldl (processEntry net clf now (host f.1)) st)
    constructor
    · simp only [List.foldl_cons, g1, h1, qualCount, List.map_cons, List.sum_cons]
      omega
    · simp only [List.foldl_cons, g2, h2, qualCount, List.map_cons, List.sum_cons]
      omega

/-- C7: feed isolation. Over feeds `[A, B]` where reading A raises (treated
as an empty entry list by the `try/except` around `fetch_rss`) and B yields
one entry whose extracted text is non-empty and relevant, `fetch_action`
completes (it is a total function — no exception escapes) and reports
exactly 1 item considered and 1 item saved. -/
theorem feed_isolation (net : String → String)
    (clf : String → String → CompletionResult) (host : String → String)
    (now uA uB : String) (e : FeedEntry) (u : String) (db : List Article)
    (hlink : e.link = some u) (hne : u ≠ "") (hext : net u ≠ "")
    (hrel : isRelevant ((e.title.getD "") ++ " " ++ net u) = true) :
    (fetch_action net clf host now [(uA, .error ()), (uB, .ok [e])] db).saved = 1 ∧
    (fetch_action net clf host now [(uA, .error ()), (uB, .ok [e])] db).fetched = 1 := by
  have hq : entryQualifies net (fetchRssItem e) = true := by
    unfold entryQualifies fetchRssItem pyOrS
    rw [hlink]
    simp [hne, hext, hrel]
  have hred : fetch_action net clf host now [(uA, .error ()), (uB, .ok [e])] db
      = processEntry net clf now (host uB) ⟨0, 0, db, 0⟩ (fetchRssItem e) := rfl
  obtain ⟨h1, h2, _⟩ :=
    processEntry_counts net clf now (host uB) ⟨0, 0, db, 0⟩ (fetchRssItem e)
  rw [hred, h1, h2, hq]
  exact ⟨rfl, rfl⟩

/-- Feed entry used by the `feed_isolation` witness. -/
def entryB : FeedEntry :=
  ⟨some "http://b/1", none, some "Security digest", none, none⟩

theorem feed_isolation_witness :
    (fetch_action (fun _ => "anonymous claims a new operation")
        (fun _ _ => .raised) (fun s => s) "N"
        [("feedA", .error ()), ("feedB", .ok [entryB])] []).saved = 1 ∧
    (fetch_action (fun _ => "anonymous claims a new operation")
        (fun _ _ => .raised) (fun s => s) "N"
        [("feedA", .error ()), ("feedB", .ok [entryB])] []).fetched = 1 :=
  feed_isolation _ _ _ _ "feedA" "feedB" entryB "http://b/1" []
    rfl (by decide) (by decide) (by decide)

/-- The cursor after folding `processUpdate` over a batch depends only on
the update ids: each step overwrites it with `update_id + 1` before the
message is handed to `process_telegram_message`, whatever that processing
returns. -/
theorem pollFold_offset (clf : String → String → CompletionResult)
    (tsIso : Nat → String) (now : String) (us : List TgUpdate) (st : PollState) :
    (us.foldl (processUpdate clf tsIso now) st).offset
      = (us.map TgUpdate.update_id).foldl (fun _ i => some (i + 1)) st.offset := by
  induction us generalizing st with
  | nil => rfl
  | cons u rest ih =>
    have hstep : ∀ s : PollState,
        (processUpdate clf tsIso now s u).offset = some (u.update_id + 1) := by
      intro s
      unfold processUpdate
      cases pyOrM u.message (pyOrM u.channel_post u.edited_message) <;> rfl
    simp only [List.foldl_cons, List.map_cons, ih, hstep]

/-- Folding the cursor-update step over a non-empty id list lands on
`last + 1`; over an empty list it keeps the starting cursor. -/
theorem foldl_offset_mem (ids : List Nat) (init : Option Nat) :
    (ids.foldl (fun _ i => (some (i + 1) : Option Nat)) init = init ∧ ids = []) ∨
    (∃ i ∈ ids, ids.foldl (fun _ i => (some (i + 1) : Option Nat)) init = some (i + 1)) := by
  induction ids generalizing init with
  | nil => exact Or.inl ⟨rfl, rfl⟩
  | cons j rest ih =>
    rcases ih (some (j + 1)) with ⟨h, hnil⟩ | ⟨i, hi, h⟩
    · refine Or.inr ⟨j, List.mem_cons_self j rest, ?_⟩
      simp only [List.foldl_cons, hnil, List.foldl_nil]
    · exact Or.inr ⟨i, List.mem_cons_of_mem j hi, by simpa using h⟩

/-- C3: cursor handling of the poller. Part 1: after a successful poll whose
batch has update ids `[5, 6, 7]`, the next `getUpdates` request carries
offset exactly 8, regardless of the per-message classification/storage
outcomes (`clf`, the store contents and every message payload are
universally quantified). Part 2: for any batch respecting the backend
contract (each id ≥ offset − 1, i.e. `o ≤ id + 1`), the cursor never
decreases across the iteration. -/
theorem poller_cursor (clf : String → String → CompletionResult)
    (tsIso : Nat → String) (now : String) (o : Nat) (store : List Article)
    (calls : Nat) (us : List TgUpdate) :
    (us.map TgUpdate.update_id = [5, 6, 7] →
      requestOffset
        (pollIteration clf tsIso now (.ok us) ⟨some o, store, calls⟩).offset = some 8) ∧
    ((∀ u ∈ us, o ≤ u.update_id + 1) →
      ∀ v, (pollIteration clf tsIso now (.ok us) ⟨some o, store, calls⟩).offset = some v →
        o ≤ v) := by
  have hoff :
      (pollIteration clf tsIso now (.ok us) ⟨some o, store, calls⟩).offset
        = (us.map TgUpdate.update_id).foldl (fun _ i => some (i + 1)) (some o) :=
    pollFold_offset clf tsIso now us ⟨some o, store, calls⟩
  constructor
  · intro hids
    rw [hoff, hids]
    rfl
  · intro hall v hv
    rw [hoff] at hv
    rcases foldl_offset_mem (us.map TgUpdate.update_id) (some o) with ⟨h, _⟩ | ⟨i, hi, h⟩
    · rw [h] at hv
      exact le_of_eq (Option.some_injective _ hv)
    · rw [h] at hv
      have hv2 : i + 1 = v := Option.some_injective _ hv
      obtain ⟨u, hu, hui⟩ := List.mem_map.mp hi
      have := hall u hu
      omega

/-- Batch of updates with ids `[5, 6, 7]` (payload-free) for the
`poller_cursor` witness. -/
def batch567 : List TgUpdate :=
  [⟨5, none, none, none⟩, ⟨6, none, none, none⟩, ⟨7, none, none, none⟩]

theorem poller_cursor_witness :
    requestOffset
      (pollIteration (fun _ _ => .raised) (fun _ => "") "N"
        (.ok batch567) ⟨some 3, [], 0⟩).offset = some 8 ∧
    (3 : Nat) ≤ 8 :=
  ⟨(poller_cursor (fun _ _ => .raised) (fun _ => "") "N" 3 [] 0 batch567).1 rfl,
   (poller_cursor (fun _ _ => .raised) (fun _ => "") "N" 3 [] 0 batch567).2
     (by decide) 8 rfl⟩

/-- C8 counterexample: a relevant chat message with no `date` is stored with
the current UTC time (`datetime.utcnow().isoformat()`, here the run where it
equals "2026-01-01T00:00:00") as `published_at` — a substituted timestamp,
not the empty string the claim requires. -/
theorem published_at_chat_cex :
    ((process_telegram_message (fun _ _ => .raised) (fun _ => "")
        "2026-01-01T00:00:00" 1 none none 1 "anonymous" none []).store.map
      Article.published_at = ["2026-01-01T00:00:00"]) ∧
    ("2026-01-01T00:00:00" : String) ≠ "" := by
  refine ⟨rfl, by decide⟩

/-- C8 (amended): on the feed path a missing publish time falls back to the
update time, else to the empty string — an entry with neither gets
`published_at = ""`; on the chat path a falsy `date` (absent or 0) is
replaced by the current UTC time, never the empty string marker. The last
conjunct exhibits a stored chat record carrying `now` verbatim. -/
theorem published_at_fallbacks :
    (∀ e : FeedEntry, e.published = none → e.updated = none →
      (fetchRssItem e).published_at = "") ∧
    (∀ (tsIso : Nat → String) (now : String) (dts : Option Nat),
      dts = none ∨ dts = some 0 → tgPublishedAt dts tsIso now = now) ∧
    ((process_telegram_message (fun _ _ => .raised) (fun _ => "") "NOW"
        1 none none 1 "anonymous" none []).store.map
      Article.published_at = ["NOW"]) := by
  refine ⟨?_, ?_, rfl⟩
  · intro e hp hup
    unfold fetchRssItem pyOrS
    rw [hp, hup]
    rfl
  · intro tsIso now dts h
    rcases h with h | h <;> rw [h] <;> rfl

theorem published_at_fallbacks_witness :
    ((fetchRssItem ⟨some "http://a/1", none, some "t", none, none⟩).published_at = "") ∧
    tgPublishedAt none (fun _ => "X") "NOW2" = "NOW2" :=
  ⟨published_at_fallbacks.1 ⟨some "http://a/1", none, some "t", none, none⟩ rfl rfl,
   published_at_fallbacks.2.1 (fun _ => "X") "NOW2" none (Or.inl rfl)⟩

/-- `Nat.toDigitsCore` only ever conses onto its accumulator. -/
theorem toDigitsCore_append (fuel : Nat) : ∀ (n : Nat) (ds : List Char),
    Nat.toDigitsCore 10 fuel n ds = Nat.toDigitsCore 10 fuel n [] ++ ds := by
  induction fuel with
  | zero => intro n ds; simp [Nat.toDigitsCore]
  | succ f ih =>
    intro n ds
    simp only [Nat.toDigitsCore]
    by_cases h : n / 10 = 0
    · simp [h]
    · simp only [h, if_false]
      rw [ih (n / 10) (Nat.digitChar (n % 10) :: ds), ih (n / 10) [Nat.digitChar (n % 10)]]
      simp

/-- The digit list produced by `Nat.toDigitsCore` does not depend on the
fuel, as long as the fuel exceeds the number. -/
theorem toDigitsCore_fuel (n : Nat) : ∀ f1 f2 : Nat, n < f1 → n < f2 →
    Nat.toDigitsCore 10 f1 n [] = Nat.toDigitsCore 10 f2 n [] := by
  induction n using Nat.strong_induction_on with
  | _ n ih =>
    intro f1 f2 h1 h2
    cases f1 with
    | zero => omega
    | succ g1 =>
      cases f2 with
      | zero => omega
      | succ g2 =>
        simp only [Nat.toDigitsCore]
        by_cases h : n / 10 = 0
        · simp [h]
        · simp only [h, if_false]
          have hlt : n / 10 < n := by omega
          rw [toDigitsCore_append g1 (n / 10), toDigitsCore_append g2 (n / 10),
            ih (n / 10) hlt g1 g2 (by omega) (by omega)]

/-- `Nat.digitChar` on an actual digit is the ASCII character `'0' + m`. -/
theorem digitChar_toNat (m : Nat) (h : m < 10) : (Nat.digitChar m).toNat = 48 + m := by
  interval_cases m <;> rfl

/-- Appending one digit multiplies the decoded value by ten. -/
theorem digitsToNat_append (xs : List Char) (d : Char) :
    digitsToNat (xs ++ [d]) = digitsToNat xs * 10 + (d.toNat - 48) := by
  unfold digitsToNat
  rw [List.foldl_append]
  rfl

/-- Decoding the decimal digit string of `n` gives back `n`. -/
theorem digitsToNat_toDigits (n : Nat) :
    digitsToNat (Nat.toDigits 10 n) = n := by
  induction n using Nat.strong_induction_on with
  | _ n ih =>
    unfold Nat.toDigits
    simp only [Nat.toDigitsCore]
    by_cases h : n / 10 = 0
    · simp only [h, if_pos]
      unfold digitsToNat
      simp only [List.foldl_cons, List.foldl_nil,
        digitChar_toNat (n % 10) (Nat.mod_lt n (by norm_num))]
      omega
    · simp only [h, if_false]
      have hlt : n / 10 < n := by omega
      rw [toDigitsCore_append n (n / 10),
        toDigitsCore_fuel (n / 10) n (n / 10 + 1) (by omega) (by omega)]
      have hdig : Nat.toDigitsCore 10 (n / 10 + 1) (n / 10) [] = Nat.toDigits 10 (n / 10) := rfl
      rw [hdig, digitsToNat_append, ih (n / 10) hlt,
        digitChar_toNat (n % 10) (Nat.mod_lt n (by norm_num))]
      omega

/-- The decimal string representation of a natural number determines it. -/
theorem natRepr_inj (m n : Nat) (h : Nat.repr m = Nat.repr n) : m = n := by
  have hdata : Nat.toDigits 10 m = Nat.toDigits 10 n := by
    have h2 := congrArg String.data h
    simpa [Nat.repr, List.asString] using h2
  calc m = digitsToNat (Nat.toDigits 10 m) := (digitsToNat_toDigits m).symm
    _ = digitsToNat (Nat.toDigits 10 n) := by rw [hdata]
    _ = n := digitsToNat_toDigits n

/-- A common leading string cancels in string equality. -/
theorem string_append_cancel (p a b : String) (h : p ++ a = p ++ b) : a = b := by
  have hd : p.data ++ a.data = p.data ++ b.data := by
    have h2 := congrArg String.data h
    simpa [String.data_append] using h2
  exact String.ext (List.append_cancel_left hd)

/-- C9: two distinct messages of the same chat synthesize distinct urls, in
both the public branch `https://t.me/{username}/{message_id}` and the
private branch `tg://{chat_id}/{message_id}` — the decimal `message_id` is
the final component either way. -/
theorem chat_url_unique (chat_id : Int) (username : Option String) (m1 m2 : Nat)
    (h : m1 ≠ m2) :
    msgUrl chat_id username m1 ≠ msgUrl chat_id username m2 := by
  have hrepr : (toString m1 : String) ≠ (toString m2 : String) := fun hh =>
    h (natRepr_inj m1 m2 hh)
  cases username with
  | none => exact fun hh => hrepr (string_append_cancel _ _ _ hh)
  | some un =>
    by_cases hun : un = ""
    · simp only [msgUrl, if_pos hun]
      exact fun hh => hrepr (string_append_cancel _ _ _ hh)
    · simp only [msgUrl, if_neg hun]
      exact fun hh => hrepr (string_append_cancel _ _ _ hh)

theorem chat_url_unique_witness :
    msgUrl (-100123) none 1 ≠ msgUrl (-100123) none 2 :=
  chat_url_unique (-100123) none 1 2 (by decide)
